import Mathlib

/-!
Shallow embedding of `colordu.py` (a colorizing wrapper around `du`).

Python semantics are modelled as follows:
* Python `float` arithmetic is modelled by exact rational arithmetic (`ℚ`);
  `int(x)` is truncation toward zero.
* A Python function that may raise is an `Except PyError` value; an exception
  propagates unless the source catches it (`add_markup` catches `ParsingError`
  only, mirroring its `try`/`except ParsingError` block).
* Python strings are `String`/`List Char`; `str.split("\t")`, `str.lstrip`,
  slicing and negative list indexing are modelled by explicit list functions
  below, each annotated with the construct it embeds.
* The environment variable read by `os.getenv("COLORDU_SCHEME", name)` is an
  explicit `Option String` parameter.
-/

set_option maxRecDepth 4000

deriving instance DecidableEq for Except

/-- Python exception values raised by the embedded code.  `valueError` carries
the message; `math.log` on a non-positive argument raises
`ValueError("math domain error")`. -/
inductive PyError where
  | parsingError (line : String)
  | valueError (msg : String)
  | indexError (msg : String)
  | keyError (msg : String)
  deriving DecidableEq, Repr

/-- Source: `POWER_BASE = 1024`. -/
def POWER_BASE : ℕ := 1024

/-- Source: `MIN_SIZE = 4 * POWER_BASE`. -/
def MIN_SIZE : ℕ := 4 * POWER_BASE

/-- Source: `MAX_SIZE = 512 * pow(POWER_BASE, 3)`. -/
def MAX_SIZE : ℕ := 512 * POWER_BASE ^ 3

/-- Source: `DU_UNITS = ["K", "M", "G", "T", "P", "E", "Z", "Y", "R", "Q"]`
(each entry is a one-character string, so we use `Char`). -/
def DU_UNITS : List Char := ['K', 'M', 'G', 'T', 'P', 'E', 'Z', 'Y', 'R', 'Q']

/-- Source: `UNIT_TO_SIZE = {unit: pow(POWER_BASE, k + 1) for k, unit in
enumerate(DU_UNITS)}`, a dict modelled as an association list in insertion
order. -/
def UNIT_TO_SIZE : List (Char × ℕ) :=
  DU_UNITS.enum.map (fun p => (p.2, POWER_BASE ^ (p.1 + 1)))

/-- Model of Python `line.split("\t")` on the character list: split at every
tab, keeping empty fields (the behaviour of `str.split` with an explicit
separator). -/
def pySplitTab : List Char → List (List Char)
  | [] => [[]]
  | c :: rest =>
    if c = '\t' then [] :: pySplitTab rest
    else
      match pySplitTab rest with
      | [] => [[c]]
      | h :: t => (c :: h) :: t

/-- Digit-string value, used by the decimal and hexadecimal literal parsers. -/
def digitsVal (ds : List Char) : ℕ :=
  ds.foldl (fun a c => 10 * a + (c.toNat - 48)) 0

/-- Mantissa of a Python float literal: `d+`, `d+.d*` or `.d+` (digits with an
optional single decimal point, at least one digit overall). -/
def parseMantissa (cs : List Char) : Option ℚ :=
  let ip := cs.takeWhile (fun c => c != '.')
  let rest := cs.dropWhile (fun c => c != '.')
  match rest with
  | [] =>
    if !ip.isEmpty && ip.all Char.isDigit then some (digitsVal ip : ℚ) else none
  | _ :: frac =>
    if ip.all Char.isDigit && frac.all Char.isDigit
        && (!ip.isEmpty || !frac.isEmpty) then
      some ((digitsVal ip : ℚ) + (digitsVal frac : ℚ) / (10 : ℚ) ^ frac.length)
    else none

/-- Exponent suffix of a Python float literal: empty, or `e`/`E` followed by an
optionally signed digit string. -/
def parseExponent : List Char → Option ℤ
  | [] => some 0
  | _ :: r =>
    let sr : ℤ × List Char :=
      match r with
      | '+' :: t => (1, t)
      | '-' :: t => (-1, t)
      | t => (1, t)
    if !sr.2.isEmpty && sr.2.all Char.isDigit then
      some (sr.1 * (digitsVal sr.2 : ℤ))
    else none

/-- Model of Python `float(s)` restricted to plain decimal literals: optional
sign, mantissa, optional exponent.  Not modelled (and never produced by `du`):
surrounding whitespace, underscore digit separators, `inf`/`nan`.  Returns
`none` where Python raises `ValueError`. -/
def pyFloat (cs : List Char) : Option ℚ :=
  let sr : ℚ × List Char :=
    match cs with
    | '+' :: t => (1, t)
    | '-' :: t => (-1, t)
    | t => (1, t)
  let mantExp := sr.2.span (fun c => c != 'e' && c != 'E')
  match parseMantissa mantExp.1, parseExponent mantExp.2 with
  | some m, some e => some (sr.1 * m * (10 : ℚ) ^ e)
  | _, _ => none

/-- Source, `parse_line` (lines 179–194):

```
def parse_line(line: str) -> tuple[str, str, float]:
    if "\t" not in line:
        raise ParsingError(line)
    size, item = line.split("\t")
    unit = size[-1]
    if unit.isalpha():
        if unit not in UNIT_TO_SIZE:
            raise ParsingError(line)
        unit_factor = UNIT_TO_SIZE[unit]
        value = float(size[:-1])
    else:
        unit_factor = 1
        value = float(size) * 1024  # TODO: extract du block size
    filesize = value * unit_factor
    return size, item, filesize
```

`size, item = line.split("\t")` raises an uncaught `ValueError` when the split
has more than two fields; `size[-1]` raises `IndexError` on an empty size
field; `float(...)` raises `ValueError` on malformed numeric text.  Only the
two `raise ParsingError` paths produce `PyError.parsingError`.
`unit.isalpha()` is modelled for ASCII input (`Char.isAlpha`); a non-ASCII
letter would reach `unit not in UNIT_TO_SIZE` and raise `ParsingError` in
Python, identical in effect to the `float` failure path never being reached
with a recognized unit. -/
def parse_line (line : String) : Except PyError (String × String × ℚ) :=
  if '\t' ∉ line.data then Except.error (PyError.parsingError line)
  else
    match pySplitTab line.data with
    | [size, item] =>
      match size.getLast? with
      | none => Except.error (PyError.indexError "string index out of range")
      | some unit =>
        if unit.isAlpha then
          match List.lookup unit UNIT_TO_SIZE with
          | none => Except.error (PyError.parsingError line)
          | some unit_factor =>
            match pyFloat size.dropLast with
            | none =>
              Except.error (PyError.valueError "could not convert string to float")
            | some value =>
              Except.ok (String.mk size, String.mk item, value * (unit_factor : ℚ))
        else
          match pyFloat size with
          | none =>
            Except.error (PyError.valueError "could not convert string to float")
          | some value =>
            Except.ok (String.mk size, String.mk item, (value * 1024) * (1 : ℚ))
    | _ => Except.error (PyError.valueError "too many values to unpack (expected 2)")

unseal Rat.mul Rat.inv Rat.add Rat.sub in
example : pyFloat "482".data = some 482 := by decide
unseal Rat.mul Rat.inv Rat.add Rat.sub in
example : pyFloat "4096".data = some 4096 := by decide
unseal Rat.mul Rat.inv Rat.add Rat.sub in
example : pyFloat "1.5".data = some (3 / 2) := by decide
unseal Rat.mul Rat.inv Rat.add Rat.sub in
example : pyFloat "".data = none := by decide
unseal Rat.mul Rat.inv Rat.add Rat.sub in
example : pyFloat "1.2.3".data = none := by decide
unseal Rat.mul Rat.inv Rat.add Rat.sub in
example : parse_line "no tab here" = Except.error (PyError.parsingError "no tab here") := by decide
unseal Rat.mul Rat.inv Rat.add Rat.sub in
example : parse_line "\t/a" = Except.error (PyError.indexError "string index out of range") := by decide
unseal Rat.mul Rat.inv Rat.add Rat.sub in
example : parse_line "5X\t/a" = Except.error (PyError.parsingError "5X\t/a") := by decide
unseal Rat.mul Rat.inv Rat.add Rat.sub in
example : parse_line "abcK\t/a" =
    Except.error (PyError.valueError "could not convert string to float") := by decide

/-- Source: `COLORSCHEME_DISCRETE_RAINBOW` (lines 36–47). -/
def COLORSCHEME_DISCRETE_RAINBOW : List String :=
  ["#882E72", "#1965B0", "#7BAFDE", "#4EB265", "#CAE0AB", "#F7F056",
   "#EE8026", "#DC050C"]

/-- Source: `COLORSCHEME_SMOOTH_RAINBOW` (lines 48–85). -/
def COLORSCHEME_SMOOTH_RAINBOW : List String :=
  ["#E8ECFB", "#DDD8EF", "#D1C1E1", "#C3A8D1", "#B58FC2", "#A778B4",
   "#9B62A7", "#8C4E99", "#6F4C9B", "#6059A9", "#5568B8", "#4E79C5",
   "#4D8AC6", "#4E96BC", "#549EB3", "#59A5A9", "#60AB9E", "#69B190",
   "#77B77D", "#8CBC68", "#A6BE54", "#BEBC48", "#D1B541", "#DDAA3C",
   "#E49C39", "#E78C35", "#E67932", "#E4632D", "#DF4828", "#DA2222",
   "#B8221E", "#95211B", "#721E17", "#521A13"]

/-- Source: `COLORSCHEME_SUNSET` (lines 86–100), eleven entries. -/
def COLORSCHEME_SUNSET : List String :=
  ["#364B9A", "#4A7BB7", "#6EA6CD", "#98CAE1", "#C2E4EF", "#EAECCC",
   "#FEDA8B", "#FDB366", "#F67E4B", "#DD3D2D", "#A50026"]

/-- Source: `COLORSCHEME_YLORBR` (lines 101–112). -/
def COLORSCHEME_YLORBR : List String :=
  ["#FFF7BC", "#FEE391", "#FEC44F", "#FB9A29", "#EC7014", "#CC4C02",
   "#993404", "#662506"]

/-- Source: `COLORSCHEME_PARTIAL_SUNSET` (lines 113–124). -/
def COLORSCHEME_PARTIAL_SUNSET : List String :=
  ["#FEDA8B", "#FDB366", "#F67E4B", "#DD3D2D", "#A50026", "#A50026",
   "#A50026", "#A50026"]

/-- Source: `KNOWN_COLORSCHEMES` (lines 126–133), a dict from scheme name to
colorscheme or `None`, modelled as an association list in insertion order
(Python dicts preserve insertion order, which `", ".join(keys)` relies on). -/
def KNOWN_COLORSCHEMES : List (String × Option (List String)) :=
  [("NONE", none),
   ("DISCRETE_RAINBOW", some COLORSCHEME_DISCRETE_RAINBOW),
   ("SMOOTH_RAINBOW", some COLORSCHEME_SMOOTH_RAINBOW),
   ("SUNSET", some COLORSCHEME_SUNSET),
   ("YLORBR", some COLORSCHEME_YLORBR),
   ("PARTIAL_SUNSET", some COLORSCHEME_PARTIAL_SUNSET)]

/-- Source: `DEFAULT_COLORSCHEME_NAME = "SUNSET"`. -/
def DEFAULT_COLORSCHEME_NAME : String := "SUNSET"

/-- Source: `FALLBACK_COLOR = "#666666"`. -/
def FALLBACK_COLOR : String := "#666666"

/-- Source, `get_colorscheme` (lines 143–152).  The value of the
`COLORDU_SCHEME` environment variable is the explicit `env` parameter
(`os.getenv` returns the default `name` when the variable is unset):

```
def get_colorscheme(name: str = DEFAULT_COLORSCHEME_NAME) -> ColorScheme | None:
    name = os.getenv("COLORDU_SCHEME", name)
    if name not in KNOWN_COLORSCHEMES:
        schemes = ", ".join(list(KNOWN_COLORSCHEMES.keys()))
        raise KeyError(f"No colorscheme with name: ...")
    return KNOWN_COLORSCHEMES[name]
``` -/
def get_colorscheme (env : Option String) (name : String) :
    Except PyError (Option (List String)) :=
  let name := env.getD name
  match List.lookup name KNOWN_COLORSCHEMES with
  | none =>
    Except.error (PyError.keyError
      ("No colorscheme with name: " ++ name ++ ". Please choose from: "
        ++ String.intercalate ", " (KNOWN_COLORSCHEMES.map Prod.fst)))
  | some cs => Except.ok cs

/-- Hexadecimal digit test for the model of Python `int(s, 16)`. -/
def isHexDigit (c : Char) : Bool :=
  c.isDigit || ('a' ≤ c && c ≤ 'f') || ('A' ≤ c && c ≤ 'F')

/-- Value of one hexadecimal digit. -/
def hexDigitVal (c : Char) : ℕ :=
  if c.isDigit then c.toNat - 48
  else if c ≤ 'F' then c.toNat - 55
  else c.toNat - 87

/-- Model of Python `int(s, 16)` for strings of hexadecimal digits (Python
additionally strips whitespace and accepts a sign and underscores; the
repository only applies it to two-character slices of hex color strings).
Returns the `ValueError` that Python raises on anything else, in particular on
the empty string. -/
def pyIntHex (cs : List Char) : Except PyError ℕ :=
  if !cs.isEmpty && cs.all isHexDigit then
    Except.ok (cs.foldl (fun a c => 16 * a + hexDigitVal c) 0)
  else Except.error (PyError.valueError "invalid literal for int() with base 16")

/-- Source, `hex_to_rgb` (lines 155–157):

```
def hex_to_rgb(value: str) -> tuple[int, int, int]:
    value = value.lstrip("#")
    return int(value[0:2], 16), int(value[2:4], 16), int(value[4:6], 16)
```

`lstrip("#")` drops every leading `#`; slices `[0:2]`, `[2:4]`, `[4:6]` are
`take`/`drop` (Python slicing clamps, so no slice can fail — only `int`). -/
def hex_to_rgb (value : String) : Except PyError (ℕ × ℕ × ℕ) :=
  let v := value.data.dropWhile (fun c => c = '#')
  match pyIntHex (v.take 2) with
  | Except.error e => Except.error e
  | Except.ok red =>
    match pyIntHex ((v.drop 2).take 2) with
    | Except.error e => Except.error e
    | Except.ok green =>
      match pyIntHex ((v.drop 4).take 2) with
      | Except.error e => Except.error e
      | Except.ok blue => Except.ok (red, green, blue)

/-- Hexadecimal rendering of one channel, Python `f"{n:02x}"`: lowercase hex
digits, left-padded with zeros to width two. -/
def hex02 (n : ℕ) : String :=
  let ds := Nat.toDigits 16 n
  String.mk (List.replicate (2 - ds.length) '0' ++ ds)

/-- Source, `rgb_to_hex` (lines 160–162): `f"#{red:02x}{green:02x}{blue:02x}"`. -/
def rgb_to_hex (rgb : ℕ × ℕ × ℕ) : String :=
  "#" ++ hex02 rgb.1 ++ hex02 rgb.2.1 ++ hex02 rgb.2.2

/-- Python `int(x)` on a float: truncation toward zero, exact on rationals. -/
def pyInt (q : ℚ) : ℤ :=
  if q < 0 then -Rat.floor (-q) else Rat.floor q

/-- Source, `interpolate_hex_colors` (lines 165–176):

```
def interpolate_hex_colors(hex_1: str, hex_2: str) -> str:
    r1, g1, b1 = hex_to_rgb(hex_1)
    r2, g2, b2 = hex_to_rgb(hex_2)
    r1, r2 = (r1, r2) if r1 < r2 else (r2, r1)
    g1, g2 = (g1, g2) if g1 < g2 else (g2, g1)
    b1, b2 = (b1, b2) if b1 < b2 else (b2, b1)
    nr = int(max(0, min(r1 + (r2 - r1) / 2, 255)))
    ng = int(max(0, min(g1 + (g2 - g1) / 2, 255)))
    nb = int(max(0, min(b1 + (b2 - b1) / 2, 255)))
    return rgb_to_hex((nr, ng, nb))
```

Channels are sorted pairs of naturals; `/ 2` is Python float division, so the
midpoint is computed in `ℚ` and truncated by `int`.  The result of
`max(0, min(..., 255))` is non-negative, so `Int.toNat` is exact when handing
the channel to `rgb_to_hex`. -/
def interpolate_hex_colors (hex_1 hex_2 : String) : Except PyError String :=
  match hex_to_rgb hex_1 with
  | Except.error e => Except.error e
  | Except.ok (r1, g1, b1) =>
    match hex_to_rgb hex_2 with
    | Except.error e => Except.error e
    | Except.ok (r2, g2, b2) =>
      let rp := if r1 < r2 then (r1, r2) else (r2, r1)
      let gp := if g1 < g2 then (g1, g2) else (g2, g1)
      let bp := if b1 < b2 then (b1, b2) else (b2, b1)
      let nr := (pyInt (max 0 (min ((rp.1 : ℚ) + ((rp.2 : ℚ) - (rp.1 : ℚ)) / 2) 255))).toNat
      let ng := (pyInt (max 0 (min ((gp.1 : ℚ) + ((gp.2 : ℚ) - (gp.1 : ℚ)) / 2) 255))).toNat
      let nb := (pyInt (max 0 (min ((bp.1 : ℚ) + ((bp.2 : ℚ) - (bp.1 : ℚ)) / 2) 255))).toNat
      Except.ok (rgb_to_hex (nr, ng, nb))

/-- Greatest `m : ℕ` with `(B : ℚ) ^ m ≤ r`, found by upward search; `fuel`
bounds the number of steps and `acc` is the largest exponent validated so far.
Used with enough fuel (see `floorLogB`), this is `⌊log_B r⌋` for `r ≥ 1`. -/
def floorLogBAux (B : ℕ) (r : ℚ) : ℕ → ℕ → ℕ
  | 0, acc => acc
  | fuel + 1, acc =>
    if (B : ℚ) ^ (acc + 1) ≤ r then floorLogBAux B r fuel (acc + 1) else acc

/-- For `1 ≤ r` and `2 ≤ B`: the greatest `m` with `(B : ℚ) ^ m ≤ r`, i.e.
`⌊log_B r⌋`.  The fuel `r.num.natAbs` suffices because `r ≤ r.num < B ^ r.num`
(see `floorLogB_lt`). -/
def floorLogB (B : ℕ) (r : ℚ) : ℕ :=
  floorLogBAux B r r.num.natAbs 0

/-- Exact value of Python `int(fraction * len)` in `get_color`, where
`fraction = math.log(filesize, 10) / math.log(MAX_SIZE, 10)` — modelling the
float computation by the real number it approximates.  For `q > 0`,
`fraction * len = len * log(q) / log(MAX_SIZE) = log_MAX_SIZE (q ^ len)`, and
`int()` truncates toward zero: `⌊log_B (q ^ len)⌋` when `q ^ len ≥ 1`, and
`-⌊log_B ((q ^ len)⁻¹)⌋` (that is, the ceiling) otherwise. -/
def log_fraction_trunc (q : ℚ) (len : ℕ) : ℤ :=
  if 1 ≤ q ^ len then (floorLogB MAX_SIZE (q ^ len) : ℤ)
  else -(floorLogB MAX_SIZE ((q ^ len)⁻¹) : ℤ)

/-- Python list indexing `xs[i]` with an `int` index: a negative index counts
from the end (`xs[-1]` is the last element); out of range raises `IndexError`. -/
def pyListGet (xs : List String) (i : ℤ) : Except PyError String :=
  let j := if i < 0 then i + xs.length else i
  if h : 0 ≤ j ∧ j < xs.length then
    Except.ok (xs.get ⟨j.toNat, by omega⟩)
  else Except.error (PyError.indexError "list index out of range")

/-- Source, `get_color` (lines 197–205):

```
def get_color(filesize: float, colorscheme: ColorScheme) -> str:
    logsize = math.log(filesize, 10)
    fraction = logsize / math.log(MAX_SIZE, 10)
    idx = int(fraction * len(colorscheme)) - 1
    if idx + 1 >= len(colorscheme):
        color = FALLBACK_COLOR
    else:
        color = interpolate_hex_colors(colorscheme[idx], colorscheme[idx + 1])
    return color
```

`math.log` raises `ValueError("math domain error")` on `filesize <= 0`;
`int(fraction * len(colorscheme))` is `log_fraction_trunc`; `colorscheme[idx]`
uses Python indexing, so a negative `idx` wraps around from the end of the
list (`pyListGet`). -/
def get_color (filesize : ℚ) (colorscheme : List String) : Except PyError String :=
  if filesize ≤ 0 then Except.error (PyError.valueError "math domain error")
  else
    let idx : ℤ := log_fraction_trunc filesize colorscheme.length - 1
    if idx + 1 ≥ (colorscheme.length : ℤ) then Except.ok FALLBACK_COLOR
    else
      match pyListGet colorscheme idx with
      | Except.error e => Except.error e
      | Except.ok c1 =>
        match pyListGet colorscheme (idx + 1) with
        | Except.error e => Except.error e
        | Except.ok c2 => interpolate_hex_colors c1 c2

/-- Source, `add_markup` (lines 208–214): `try: ... except ParsingError:
return line`, so only `PyError.parsingError` is caught; every other exception
(from `parse_line`, `get_color` or `interpolate_hex_colors`) propagates.  The
f-string `f"[{color}]{size}[/{color}]\t{item}"` is the final concatenation. -/
def add_markup (line : String) (colorscheme : List String) : Except PyError String :=
  match parse_line line with
  | Except.error (PyError.parsingError _) => Except.ok line
  | Except.error e => Except.error e
  | Except.ok (size, item, realsize) =>
    match get_color realsize colorscheme with
    | Except.error e => Except.error e
    | Except.ok color =>
      Except.ok ("[" ++ color ++ "]" ++ size ++ "[/" ++ color ++ "]\t" ++ item)

/-- Source, `run_du` (lines 217–231), restricted to its pure core: the
colorscheme is resolved once, before any line is read; each line is then
printed with markup (non-`None` scheme) or verbatim (`NONE` scheme).  Process
spawning and console printing are external collaborators; the line stream is
the `lines` parameter and the printed stream is the result. -/
def run_du_lines (env : Option String) (lines : List String) :
    Except PyError (List String) :=
  match get_colorscheme env DEFAULT_COLORSCHEME_NAME with
  | Except.error e => Except.error e
  | Except.ok colorscheme =>
    lines.mapM (fun strline =>
      match colorscheme with
      | some cs => add_markup strline cs
      | none => Except.ok strline)

unseal Rat.mul Rat.inv Rat.add Rat.sub in
example : hex_to_rgb "#364B9A" = Except.ok (54, 75, 154) := by decide
unseal Rat.mul Rat.inv Rat.add Rat.sub in
example : interpolate_hex_colors "#A50026" "#364B9A" = Except.ok "#6d2560" := by decide
unseal Rat.mul Rat.inv Rat.add Rat.sub in
example : interpolate_hex_colors "#364B9A" "#4A7BB7" = Except.ok "#4063a8" := by decide

/-! Supporting lemmas. -/

theorem floorLogBAux_lt (B : ℕ) (r : ℚ) :
    ∀ fuel acc, r < (B : ℚ) ^ (acc + fuel + 1) →
      r < (B : ℚ) ^ (floorLogBAux B r fuel acc + 1) := by
  intro fuel
  induction fuel with
  | zero =>
    intro acc h
    simpa [floorLogBAux] using h
  | succ f ih =>
    intro acc h
    simp only [floorLogBAux]
    split
    case isTrue hc =>
      exact ih (acc + 1) (by rw [show acc + 1 + f + 1 = acc + (f + 1) + 1 from by ring]; exact h)
    case isFalse hc =>
      exact not_le.mp hc

theorem rat_lt_pow_num (B : ℕ) (r : ℚ) (hB : 2 ≤ B) (hr : 1 ≤ r) :
    r < (B : ℚ) ^ (r.num.natAbs + 1) := by
  have h0 : (0 : ℚ) < r := lt_of_lt_of_le one_pos hr
  have hnum : 0 < r.num := Rat.num_pos.mpr h0
  have h1 : r ≤ (r.num : ℚ) := by
    conv_lhs => rw [← Rat.num_div_den r]
    apply div_le_self (by exact_mod_cast hnum.le)
    exact_mod_cast Nat.one_le_iff_ne_zero.mpr r.den_nz
  have h2i : ((r.num.natAbs : ℕ) : ℤ) = r.num := Int.natAbs_of_nonneg hnum.le
  have h2 : ((r.num.natAbs : ℕ) : ℚ) = (r.num : ℚ) := by
    rw [Int.cast_natAbs]
    exact congrArg (fun z : ℤ => (z : ℚ)) (abs_of_nonneg hnum.le)
  have h3 : ((r.num.natAbs : ℕ) : ℚ) < (2 : ℚ) ^ r.num.natAbs := by
    exact_mod_cast Nat.lt_two_pow r.num.natAbs
  have h4 : (2 : ℚ) ^ r.num.natAbs ≤ (B : ℚ) ^ r.num.natAbs :=
    pow_le_pow_left₀ (by norm_num) (by exact_mod_cast hB) _
  have h5 : (B : ℚ) ^ r.num.natAbs ≤ (B : ℚ) ^ (r.num.natAbs + 1) :=
    pow_le_pow_right₀ (by exact_mod_cast le_trans (by norm_num) hB) (Nat.le_succ _)
  calc r ≤ (r.num : ℚ) := h1
    _ = ((r.num.natAbs : ℕ) : ℚ) := h2.symm
    _ < (2 : ℚ) ^ r.num.natAbs := h3
    _ ≤ (B : ℚ) ^ r.num.natAbs := h4
    _ ≤ (B : ℚ) ^ (r.num.natAbs + 1) := h5

theorem floorLogB_lt (B : ℕ) (r : ℚ) (hB : 2 ≤ B) (hr : 1 ≤ r) :
    r < (B : ℚ) ^ (floorLogB B r + 1) := by
  apply floorLogBAux_lt
  rw [Nat.zero_add]
  exact rat_lt_pow_num B r hB hr

theorem le_floorLogB (B : ℕ) (r : ℚ) (m : ℕ) (hB : 2 ≤ B) (hr : 1 ≤ r)
    (hm : (B : ℚ) ^ m ≤ r) : m ≤ floorLogB B r := by
  by_contra hcon
  push_neg at hcon
  have h1 : (B : ℚ) ^ (floorLogB B r + 1) ≤ (B : ℚ) ^ m :=
    pow_le_pow_right₀ (by exact_mod_cast le_trans (by norm_num) hB) (by omega)
  have h2 := floorLogB_lt B r hB hr
  linarith

theorem floorLogBAux_of_head (B : ℕ) (r : ℚ) (h : ¬ ((B : ℚ) ≤ r)) :
    ∀ fuel, floorLogBAux B r fuel 0 = 0 := by
  intro fuel
  cases fuel with
  | zero => rfl
  | succ f => simp [floorLogBAux, h]

theorem pySplitTab_no_tab : ∀ cs : List Char, '\t' ∉ cs → pySplitTab cs = [cs] := by
  intro cs
  induction cs with
  | nil => intro _; rfl
  | cons c rest ih =>
    intro h
    have hc : ¬ (c = '\t') := fun hx => h (hx ▸ List.mem_cons_self c rest)
    have hr : '\t' ∉ rest := fun hx => h (List.mem_cons_of_mem c hx)
    simp [pySplitTab, hc, ih hr]

theorem pySplitTab_append (pre rest : List Char) (h : '\t' ∉ pre) :
    pySplitTab (pre ++ '\t' :: rest) = pre :: pySplitTab rest := by
  induction pre with
  | nil => simp [pySplitTab]
  | cons c pre ih =>
    have hc : ¬ (c = '\t') := fun hx => h (hx ▸ List.mem_cons_self c pre)
    have hp : '\t' ∉ pre := fun hx => h (List.mem_cons_of_mem c hx)
    simp only [List.cons_append, pySplitTab, if_neg hc]
    rw [show pre.append ('\t' :: rest) = pre ++ '\t' :: rest from rfl, ih hp]

theorem string_data_append (a b : String) : (a ++ b).data = a.data ++ b.data := rfl

theorem string_data_push (a : String) (c : Char) : (a.push c).data = a.data ++ [c] := rfl

/-! Claim theorems. -/

unseal Rat.mul Rat.inv Rat.add Rat.sub in
/-- C1: the claim says `add_markup` with a non-disabled palette never raises,
and that in particular a line with more than one tab is returned unchanged.
The code violates this: `size, item = line.split("\t")` raises an uncaught
`ValueError` on a line with two tabs (only `ParsingError` is caught), so the
error propagates out of `add_markup` instead of the line passing through.
This theorem evaluates the embedded code at such a failing input. -/
theorem claim_C1 : add_markup "12\t/a\t/b" COLORSCHEME_SUNSET =
    Except.error (PyError.valueError "too many values to unpack (expected 2)") := by
  decide

unseal Rat.mul Rat.inv Rat.add Rat.sub in
/-- C4: the claim says `get_color` maps a zero or negative byte count to the
fallback color and never surfaces the domain error.  The code violates this:
`math.log(filesize, 10)` raises `ValueError("math domain error")` for
`filesize <= 0`, nothing catches it, and it propagates out of `add_markup`
(e.g. for the realistic `du -a` output line `"0\t/empty"`). -/
theorem claim_C4 :
    get_color 0 COLORSCHEME_SUNSET =
      Except.error (PyError.valueError "math domain error") ∧
    add_markup "0\t/empty" COLORSCHEME_SUNSET =
      Except.error (PyError.valueError "math domain error") := by
  decide

unseal Rat.mul Rat.inv Rat.add Rat.sub in
/-- C3 counterexample: the claim says a negative palette index is clamped to 0
so that the color is the interpolation of the first two palette entries.  At
`byteCount = 1` the index is `-1`, and the code returns the interpolation of
the LAST and FIRST entries (Python negative indexing), not of the first two:
`interpolate(SUNSET[0], SUNSET[1]) = "#4063a8"` but the code yields
`interpolate(SUNSET[-1], SUNSET[0]) = "#6d2560"`. -/
theorem claim_C3_counterexample :
    interpolate_hex_colors "#364B9A" "#4A7BB7" = Except.ok "#4063a8" ∧
    get_color 1 COLORSCHEME_SUNSET ≠ Except.ok "#4063a8" ∧
    get_color 1 COLORSCHEME_SUNSET =
      interpolate_hex_colors "#A50026" "#364B9A" := by
  decide

/-- C9: a line without a tab character is returned byte-for-byte identical by
`add_markup`: `parse_line` raises `ParsingError`, which `add_markup` catches
and answers with the unmodified line. -/
theorem claim_C9 (line : String) (colorscheme : List String)
    (h : '\t' ∉ line.data) :
    add_markup line colorscheme = Except.ok line := by
  unfold add_markup parse_line
  rw [if_pos h]

/-- C9 witness at a concrete tab-free line. -/
theorem claim_C9_witness :
    add_markup "4.0K ./foo" COLORSCHEME_SUNSET = Except.ok "4.0K ./foo" :=
  claim_C9 "4.0K ./foo" COLORSCHEME_SUNSET (by decide)

/-- C10: with the `COLORDU_SCHEME` environment variable unset and the default
name argument, `get_colorscheme` returns the eleven-entry SUNSET palette, not
the disabled `NONE` sentinel. -/
theorem claim_C10 :
    get_colorscheme none DEFAULT_COLORSCHEME_NAME =
      Except.ok (some COLORSCHEME_SUNSET) ∧
    COLORSCHEME_SUNSET.length = 11 := by
  decide

/-- C8: any requested scheme name (the environment value, falling back to the
default argument) that is not a key of `KNOWN_COLORSCHEMES` makes
`get_colorscheme` fail with a `KeyError` whose message lists every registry
key, and `run_du_lines` then fails with that same error whatever the input
lines are — before any line is processed. -/
theorem claim_C8 (env : Option String) (lines : List String)
    (h : List.lookup (env.getD DEFAULT_COLORSCHEME_NAME) KNOWN_COLORSCHEMES = none) :
    get_colorscheme env DEFAULT_COLORSCHEME_NAME =
      Except.error (PyError.keyError
        ("No colorscheme with name: " ++ env.getD DEFAULT_COLORSCHEME_NAME
          ++ ". Please choose from: "
          ++ String.intercalate ", " (KNOWN_COLORSCHEMES.map Prod.fst))) ∧
    run_du_lines env lines =
      Except.error (PyError.keyError
        ("No colorscheme with name: " ++ env.getD DEFAULT_COLORSCHEME_NAME
          ++ ". Please choose from: "
          ++ String.intercalate ", " (KNOWN_COLORSCHEMES.map Prod.fst))) := by
  have hg : get_colorscheme env DEFAULT_COLORSCHEME_NAME =
      Except.error (PyError.keyError
        ("No colorscheme with name: " ++ env.getD DEFAULT_COLORSCHEME_NAME
          ++ ". Please choose from: "
          ++ String.intercalate ", " (KNOWN_COLORSCHEMES.map Prod.fst))) := by
    simp only [get_colorscheme]
    rw [h]
  exact ⟨hg, by unfold run_du_lines; rw [hg]⟩

/-- C8 witness: the scheme name `"BOGUS"` fails before any line is processed,
with the full enumeration of valid names in the message. -/
theorem claim_C8_witness :
    get_colorscheme (some "BOGUS") DEFAULT_COLORSCHEME_NAME =
      Except.error (PyError.keyError
        ("No colorscheme with name: " ++ (some "BOGUS").getD DEFAULT_COLORSCHEME_NAME
          ++ ". Please choose from: "
          ++ String.intercalate ", " (KNOWN_COLORSCHEMES.map Prod.fst))) ∧
    run_du_lines (some "BOGUS") ["482M\t/home/user/project"] =
      Except.error (PyError.keyError
        ("No colorscheme with name: " ++ (some "BOGUS").getD DEFAULT_COLORSCHEME_NAME
          ++ ". Please choose from: "
          ++ String.intercalate ", " (KNOWN_COLORSCHEMES.map Prod.fst))) :=
  claim_C8 (some "BOGUS") ["482M\t/home/user/project"] (by decide)

/-- C5: for every byte count at or above `MAX_SIZE = 512 × 1024³` and every
colorscheme, `get_color` returns the fixed fallback color: the truncated
log-index of `q ^ len` is then at least `len`, so the saturation branch is
taken. -/
theorem claim_C5 (colorscheme : List String) (q : ℚ)
    (h : (MAX_SIZE : ℚ) ≤ q) :
    get_color q colorscheme = Except.ok FALLBACK_COLOR := by
  have hB2 : 2 ≤ MAX_SIZE := by norm_num [MAX_SIZE, POWER_BASE]
  have hM1 : (1 : ℚ) ≤ (MAX_SIZE : ℚ) := by
    have h1n : (1 : ℕ) ≤ MAX_SIZE := by norm_num [MAX_SIZE, POWER_BASE]
    exact_mod_cast h1n
  have h1 : (1 : ℚ) ≤ q := le_trans hM1 h
  have hq0 : ¬ q ≤ 0 := not_le.mpr (by linarith)
  have hpow : (1 : ℚ) ≤ q ^ colorscheme.length := by
    have hp := pow_le_pow_left₀ zero_le_one h1 colorscheme.length
    simpa using hp
  have hMp : ((MAX_SIZE : ℚ)) ^ colorscheme.length ≤ q ^ colorscheme.length :=
    pow_le_pow_left₀ (by positivity) h _
  have hkey : colorscheme.length ≤ floorLogB MAX_SIZE (q ^ colorscheme.length) :=
    le_floorLogB _ _ _ hB2 hpow hMp
  simp only [get_color, log_fraction_trunc, if_neg hq0, if_pos hpow]
  split
  next => rfl
  next hc => exact absurd (by omega) hc

/-- C5 witness at the ceiling itself, with the SUNSET palette. -/
theorem claim_C5_witness :
    get_color (MAX_SIZE : ℚ) COLORSCHEME_SUNSET = Except.ok FALLBACK_COLOR :=
  claim_C5 COLORSCHEME_SUNSET (MAX_SIZE : ℚ) le_rfl

unseal Rat.mul Rat.inv Rat.add Rat.sub in
/-- C3 (amended): a negative palette index is NOT clamped to 0; Python list
indexing wraps negative indices around from the end.  Whenever the computed
index is `-1` — that is, for every byte count `q` with `1 ≤ q` and
`q ^ 11 < MAX_SIZE` — `get_color` on the SUNSET palette interpolates the LAST
and FIRST entries (`"#A50026"` and `"#364B9A"`), not the first two. -/
theorem claim_C3 (q : ℚ) (h1 : 1 ≤ q)
    (hlt : q ^ COLORSCHEME_SUNSET.length < (MAX_SIZE : ℚ)) :
    get_color q COLORSCHEME_SUNSET = interpolate_hex_colors "#A50026" "#364B9A" := by
  have hq0 : ¬ q ≤ 0 := not_le.mpr (by linarith)
  have hpow : (1 : ℚ) ≤ q ^ COLORSCHEME_SUNSET.length := by
    have hp := pow_le_pow_left₀ zero_le_one h1 COLORSCHEME_SUNSET.length
    simpa using hp
  have hfl : floorLogB MAX_SIZE (q ^ COLORSCHEME_SUNSET.length) = 0 := by
    unfold floorLogB
    exact floorLogBAux_of_head _ _ (not_le.mpr hlt) _
  simp only [get_color, log_fraction_trunc, if_pos hpow, if_neg hq0, hfl]
  decide

unseal Rat.mul Rat.inv Rat.add Rat.sub in
/-- C3 witness: at byte count 1 the hypotheses of the amended claim hold and
the wrap-around interpolation is returned. -/
theorem claim_C3_witness :
    (1 : ℚ) ≤ 1 ∧ (1 : ℚ) ^ COLORSCHEME_SUNSET.length < (MAX_SIZE : ℚ) ∧
    get_color 1 COLORSCHEME_SUNSET = interpolate_hex_colors "#A50026" "#364B9A" :=
  ⟨le_rfl, by decide, claim_C3 1 le_rfl (by decide)⟩

/-- C7: `interpolate_hex_colors` is commutative on every pair of colors that
`hex_to_rgb` decodes (in particular on all valid six-digit hex colors): each
channel pair is sorted before the midpoint is taken, so the order of the two
arguments is irrelevant. -/
theorem claim_C7 (a b : String) (ra ga ba rb gb bb : ℕ)
    (ha : hex_to_rgb a = Except.ok (ra, ga, ba))
    (hb : hex_to_rgb b = Except.ok (rb, gb, bb)) :
    interpolate_hex_colors a b = interpolate_hex_colors b a := by
  have hs : ∀ x y : ℕ,
      (if x < y then (x, y) else (y, x)) = (if y < x then (y, x) else (x, y)) := by
    intro x y
    rcases lt_trichotomy x y with hxy | hxy | hxy
    · rw [if_pos hxy, if_neg (by omega)]
    · subst hxy; rfl
    · rw [if_neg (by omega), if_pos hxy]
  simp only [interpolate_hex_colors, ha, hb]
  rw [hs ra rb, hs ga gb, hs ba bb]

unseal Rat.mul Rat.inv Rat.add Rat.sub in
/-- C7 witness at the first and last SUNSET entries. -/
theorem claim_C7_witness :
    interpolate_hex_colors "#364B9A" "#A50026" =
      interpolate_hex_colors "#A50026" "#364B9A" :=
  claim_C7 "#364B9A" "#A50026" 54 75 154 165 0 38 (by decide) (by decide)

/-- C2: for every line whose size field is a parseable number `s` followed by
the unit letter at position `i` of `DU_UNITS`, `parse_line` returns the byte
count `q * 1024 ^ (i + 1)`; and the multipliers of `UNIT_TO_SIZE` strictly
increase along the unit alphabet. -/
theorem claim_C2 (s item : String) (q : ℚ) (u : Char) (i : ℕ)
    (hq : pyFloat s.data = some q)
    (hu : DU_UNITS[i]? = some u)
    (hs : '\t' ∉ s.data) (hitem : '\t' ∉ item.data) :
    parse_line (s.push u ++ "\t" ++ item) =
      Except.ok (s.push u, item, q * ((POWER_BASE ^ (i + 1) : ℕ) : ℚ)) ∧
    List.Pairwise (fun a b : ℕ => a < b) (UNIT_TO_SIZE.map Prod.snd) := by
  refine ⟨?_, by decide⟩
  have hlen : i < DU_UNITS.length := by
    by_contra hn
    push_neg at hn
    rw [List.getElem?_eq_none hn] at hu
    cases hu
  have key : ∀ j : Fin DU_UNITS.length,
      (DU_UNITS.get j).isAlpha = true ∧ ¬ DU_UNITS.get j = '\t' ∧
        List.lookup (DU_UNITS.get j) UNIT_TO_SIZE =
          some (POWER_BASE ^ ((j : ℕ) + 1)) := by decide
  obtain ⟨halpha, htabu, hlook⟩ := key ⟨i, hlen⟩
  have hgu : DU_UNITS.get ⟨i, hlen⟩ = u := by
    rw [List.getElem?_eq_getElem hlen] at hu
    exact Option.some.inj hu
  rw [hgu] at halpha htabu hlook
  have hlook2 : List.lookup u UNIT_TO_SIZE = some (POWER_BASE ^ (i + 1)) := hlook
  have hpre : '\t' ∉ s.data ++ [u] := by
    intro hmem
    rcases List.mem_append.mp hmem with hm | hm
    · exact hs hm
    · rw [List.mem_singleton] at hm
      exact htabu hm.symm
  have hdata : (s.push u ++ "\t" ++ item).data = (s.data ++ [u]) ++ '\t' :: item.data := by
    rw [string_data_append, string_data_append, string_data_push]
    show (s.data ++ [u]) ++ ['\t'] ++ item.data = _
    rw [List.append_assoc, List.singleton_append]
  have htabmem : '\t' ∈ (s.data ++ [u]) ++ '\t' :: item.data := by simp
  have hsplit : pySplitTab ((s.data ++ [u]) ++ '\t' :: item.data) =
      [s.data ++ [u], item.data] := by
    rw [pySplitTab_append _ _ hpre, pySplitTab_no_tab _ hitem]
  unfold parse_line
  rw [hdata, if_neg (not_not_intro htabmem), hsplit]
  simp only [List.getLast?_concat, halpha, if_true, hlook2, List.dropLast_concat, hq]
  rfl

unseal Rat.mul Rat.inv Rat.add Rat.sub in
/-- C2 witness at the spec scenario line `"482M\t/home/user/project"`:
`M` is at position 1, so the byte count is `482 * 1024 ^ 2`. -/
theorem claim_C2_witness :
    parse_line ("482".push 'M' ++ "\t" ++ "/home/user/project") =
      Except.ok ("482".push 'M', "/home/user/project",
        (482 : ℚ) * ((POWER_BASE ^ (1 + 1) : ℕ) : ℚ)) ∧
    List.Pairwise (fun a b : ℕ => a < b) (UNIT_TO_SIZE.map Prod.snd) :=
  claim_C2 "482" "/home/user/project" 482 'M' 1 (by decide) (by decide)
    (by decide) (by decide)

/-- C6: for every line whose size field is purely numeric (its last character
is not a letter) and parses as `q`, `parse_line` returns the byte count
`q * 1024` — one default `du` block is 1 KiB. -/
theorem claim_C6 (s item : String) (q : ℚ) (lc : Char)
    (hq : pyFloat s.data = some q)
    (hlast : s.data.getLast? = some lc) (hna : lc.isAlpha = false)
    (hs : '\t' ∉ s.data) (hitem : '\t' ∉ item.data) :
    parse_line (s ++ "\t" ++ item) = Except.ok (s, item, q * 1024) := by
  have hdata : (s ++ "\t" ++ item).data = s.data ++ '\t' :: item.data := by
    rw [string_data_append, string_data_append]
    show s.data ++ ['\t'] ++ item.data = _
    rw [List.append_assoc, List.singleton_append]
  have htabmem : '\t' ∈ s.data ++ '\t' :: item.data := by simp
  have hsplit : pySplitTab (s.data ++ '\t' :: item.data) = [s.data, item.data] := by
    rw [pySplitTab_append _ _ hs, pySplitTab_no_tab _ hitem]
  unfold parse_line
  rw [hdata, if_neg (not_not_intro htabmem), hsplit]
  simp only [hlast, hna, Bool.false_eq_true, if_false, hq]
  rw [mul_one]

unseal Rat.mul Rat.inv Rat.add Rat.sub in
/-- C6 witness at the spec scenario line `"4096\t/tmp"`:
`4096 * 1024 = 4194304` bytes. -/
theorem claim_C6_witness :
    parse_line ("4096" ++ "\t" ++ "/tmp") =
      Except.ok ("4096", "/tmp", (4096 : ℚ) * 1024) :=
  claim_C6 "4096" "/tmp" 4096 '6' (by decide) (by decide) (by decide)
    (by decide) (by decide)
